import Mathlib

/-!
Verification model of the quantum booking system.

The repository is a Flask booking server (`src/server.py`) together with a
`quantum_service` package (entropy, encryptor, decryptor, signer, config).
Conventions of the shallow embedding:

* Python `str` values are modelled as `List Char`; the UTF-8 encoding of a
  string is modelled by the injective map `strBytes` (code points), and the
  matching decode direction by `decodeUtf8Model`.
* Python `bytes` values are modelled as `List Nat` whose elements are < 256
  where it matters (hypotheses state the bound explicitly).
* Randomness (`secrets.token_bytes`, `secrets.choice`, quantum measurements)
  is passed in as explicit parameters.
* External cryptographic library calls (HMAC, SHA-2, AES-GCM via
  PyCryptodome, base64) are opaque primitives collected in the `Primitives`
  structure, together with the functional laws their documentation
  guarantees (output lengths, byte-ness, deterministic round trips).
  Everything written in the repository itself is modelled concretely.
-/

/-- Code-point bytes of a string, modelling `s.encode('utf-8')` as an
injective encoding of `List Char` into `List Nat`. -/
def strBytes (s : List Char) : List Nat := s.map Char.toNat

/-- ASCII bytes of a Lean string literal, used for the fixed keys, salts and
separators appearing in the sources. -/
def asciiBytes (s : String) : List Nat := s.data.map Char.toNat

/-- Inverse of `strBytes`, modelling `bytes.decode('utf-8')`: fails when a
value is not a valid scalar, otherwise rebuilds the characters. -/
def decodeUtf8Model (l : List Nat) : Option (List Char) :=
  if ∀ b ∈ l, Nat.isValidChar b then some (l.map Char.ofNat) else none

/-- ASCII uppercase of one character, as in Python `str.upper` restricted to
ASCII (the only case exercised by the server). -/
def upperChar (c : Char) : Char :=
  if 97 ≤ c.toNat ∧ c.toNat ≤ 122 then Char.ofNat (c.toNat - 32) else c

/-- `str.upper()` on a modelled string. -/
def upperChars (s : List Char) : List Char := s.map upperChar

/-- Whitespace test used by Python `str.strip()`. -/
def isSpaceChar (c : Char) : Bool :=
  c.toNat = 32 ∨ c.toNat = 9 ∨ c.toNat = 10 ∨ c.toNat = 13 ∨ c.toNat = 11 ∨ c.toNat = 12

/-- `str.strip()` on a modelled string. -/
def trimChars (s : List Char) : List Char :=
  ((s.dropWhile isSpaceChar).reverse.dropWhile isSpaceChar).reverse

/-- Byte-wise XOR of two byte strings, truncated to the shorter one, as in
`bytes(a ^ b for a, b in zip(xs, ys))`. -/
def xorBytes (xs ys : List Nat) : List Nat :=
  (xs.zip ys).map (fun p => p.1 ^^^ p.2)

/-- Lowercase hexadecimal digits as produced by `bytes.hex()`. -/
def hexDigitLower (n : Nat) : Char := "0123456789abcdef".toList.getD n '0'

/-- Hex encoding of a byte string (`bytes.hex()`): two lowercase digits per
byte, most significant digit first. -/
def hexEncode : List Nat → List Char
  | [] => []
  | b :: rest => hexDigitLower (b / 16) :: hexDigitLower (b % 16) :: hexEncode rest

/-- Value of one hexadecimal digit, accepting both cases;
`none` for a character that is not a hex digit. -/
def hexDigitVal (c : Char) : Option Nat :=
  if 48 ≤ c.toNat ∧ c.toNat ≤ 57 then some (c.toNat - 48)
  else if 97 ≤ c.toNat ∧ c.toNat ≤ 102 then some (c.toNat - 87)
  else if 65 ≤ c.toNat ∧ c.toNat ≤ 70 then some (c.toNat - 55)
  else none

/-- `bytes.fromhex` (as used by `config.hex_to_bytes`): parses pairs of hex
digits, failing (a Python `ValueError`) on a stray digit or a non-hex
character. -/
def hexToBytes : List Char → Option (List Nat)
  | [] => some []
  | [_] => none
  | c1 :: c2 :: rest =>
    match hexDigitVal c1, hexDigitVal c2, hexToBytes rest with
    | some hi, some lo, some tail => some ((16 * hi + lo) :: tail)
    | _, _, _ => none

/-! ## Entropy service (`src/quantum_service/entropy.py`) -/

/-- Character set for booking references; excludes I, O, 0, 1
(`entropy.BOOKING_CHARSET`). -/
def Entropy.BOOKING_CHARSET : List Char := "ABCDEFGHJKLMNPQRSTUVWXYZ23456789".toList

/-- `entropy.DEFAULT_LENGTH`. -/
def Entropy.DEFAULT_LENGTH : Nat := 8

/-- `entropy.MAX_LENGTH`. -/
def Entropy.MAX_LENGTH : Nat := 32

/-- `int(bits, 2)`: binary string to integer, for the measured qubit string. -/
def Entropy.bitsToNat (bits : List Bool) : Nat :=
  bits.foldl (fun a b => 2 * a + (if b then 1 else 0)) 0

/-- Loop body of `entropy.bits_to_booking_ref`: repeatedly emit
`charset[num % size]`, divide `num` by the size, and when the accumulator is
exhausted before the requested length is reached draw a fresh random value
(`secrets.randbelow`, modelled by the stream `draws`).  The first argument of
the recursion is the number of characters still to produce. -/
def Entropy.bitsAux (draws : Nat → Nat) (cs : List Char) : Nat → Nat → Nat → List Char
  | 0, _, _ => []
  | k + 1, num, step =>
    let c := cs.getD (num % cs.length) 'A'
    let q := num / cs.length
    if q = 0 ∧ k ≠ 0 then c :: Entropy.bitsAux draws cs k (draws step) (step + 1)
    else c :: Entropy.bitsAux draws cs k q step

/-- `entropy.bits_to_booking_ref bits charset length`. -/
def Entropy.bitsToBookingRef (draws : Nat → Nat) (bits : List Bool) (cs : List Char)
    (len : Nat) : List Char :=
  Entropy.bitsAux draws cs len (Entropy.bitsToNat bits) 0

/-- `entropy.generate_qrng_mock`: one `secrets.choice(BOOKING_CHARSET)` per
output character; the random source is modelled by the stream `choice` of
indices below the charset size 32. -/
def Entropy.generateQrngMock (choice : Nat → Fin 32) (len : Nat) : List Char :=
  (List.range len).map (fun i => Entropy.BOOKING_CHARSET.getD (choice i).val 'A')

/-- The length clamp at the top of `entropy.generate_booking_reference`. -/
def Entropy.clampLength (len : Nat) : Nat :=
  if len < 4 then 4 else if len > Entropy.MAX_LENGTH then Entropy.MAX_LENGTH else len

/-- `entropy.generate_booking_reference` (the `random_id` it returns):
clamps the length, then uses the quantum path (`bits_to_booking_ref` over the
measured bits) when Qiskit is available and the `secrets` path otherwise. -/
def Entropy.generateBookingReference (qiskitAvailable : Bool) (choice : Nat → Fin 32)
    (bits : List Bool) (draws : Nat → Nat) (len : Nat) : List Char :=
  let n := Entropy.clampLength len
  if qiskitAvailable then Entropy.bitsToBookingRef draws bits Entropy.BOOKING_CHARSET n
  else Entropy.generateQrngMock choice n

/-! ## Server-side QRNG (`server.generate_quantum_entropy`) -/

/-- `server.generate_quantum_entropy`, with the 12 random bytes passed
explicitly: hex-encode them, uppercase, and format as
`QREF-XXXX-XXXX-XXXX`. -/
def Server.generateQuantumEntropy (randomBytes : List Nat) : List Char :=
  let hexStr := upperChars (hexEncode randomBytes)
  "QREF-".toList ++ hexStr.take 4 ++ "-".toList ++ ((hexStr.drop 4).take 4)
    ++ "-".toList ++ ((hexStr.drop 8).take 4)

/-! ## External cryptographic primitives

`Primitives` packages the library calls the repository treats as opaque
(PyCryptodome's AES-GCM, `hmac`/`hashlib`, `base64`), together with the
functional laws their documentation guarantees and the code relies on:
fixed digest lengths, byte-valued output, and deterministic round trips. -/

structure Primitives where
  hmacSha256 : List Nat → List Nat → List Nat
  hmacSha512 : List Nat → List Nat → List Nat
  sha256 : List Nat → List Nat
  sha512 : List Nat → List Nat
  gcmEncryptDigest : List Nat → List Nat → List Nat → List Nat × List Nat
  gcmDecryptVerify : List Nat → List Nat → List Nat → List Nat → Option (List Nat)
  b64encode : List Nat → List Nat
  b64decode : List Nat → Option (List Nat)
  hmacSha256_len : ∀ k m, (hmacSha256 k m).length = 32
  hmacSha512_len : ∀ k m, (hmacSha512 k m).length = 64
  sha256_len : ∀ m, (sha256 m).length = 32
  sha512_len : ∀ m, (sha512 m).length = 64
  hmacSha512_lt : ∀ k m, ∀ b ∈ hmacSha512 k m, b < 256
  sha512_lt : ∀ m, ∀ b ∈ sha512 m, b < 256
  gcm_tag_len : ∀ k n p, (gcmEncryptDigest k n p).2.length = 16
  gcm_roundtrip : ∀ k n p,
    gcmDecryptVerify k n (gcmEncryptDigest k n p).1 (gcmEncryptDigest k n p).2 = some p
  b64_roundtrip : ∀ x, b64decode (b64encode x) = some x

/-- `aes_encrypt` (encryptor.py): AES-256-GCM `encrypt_and_digest`, with the
16-byte tag appended to the ciphertext.  The random 96-bit nonce is a
parameter. -/
def aesEncryptFn (P : Primitives) (key nonce plaintext : List Nat) : List Nat :=
  (P.gcmEncryptDigest key nonce plaintext).1 ++ (P.gcmEncryptDigest key nonce plaintext).2

/-- `aes_decrypt` (decryptor.py): split off the trailing 16-byte tag and run
AES-256-GCM `decrypt_and_verify`; `none` models the `ValueError` raised on a
tag mismatch. -/
def aesDecryptFn (P : Primitives) (key ctWithTag nonce : List Nat) : Option (List Nat) :=
  let ct := ctWithTag.take (ctWithTag.length - 16)
  let tag := ctWithTag.drop (ctWithTag.length - 16)
  P.gcmDecryptVerify key nonce ct tag

/-- `hkdf_derive_key` (identical in encryptor.py and decryptor.py):
HMAC-SHA256 extract with the fixed salt, HMAC-SHA256 expand with the fixed
info string plus a 0x01 byte, truncated to 32 bytes. -/
def hkdfDeriveKey (P : Primitives) (sharedSecret : List Nat) : List Nat :=
  let prk := P.hmacSha256 (asciiBytes "quantum-salt") sharedSecret
  let okm := P.hmacSha256 prk (asciiBytes "quantum-airline-aes-key" ++ [1])
  okm.take 32

/-- The AEAD authentication contract the spec attributes to AES-GCM: flipping
any single byte of the ciphertext-with-tag of a genuine encryption makes
`decrypt_and_verify` reject.  Real AES-GCM satisfies this except with
negligible probability; it is the hypothesis under which tamper detection is
proved. -/
def AEADSingleFlipIntegrity (P : Primitives) : Prop :=
  ∀ key nonce pt i v, (∀ b ∈ pt, b < 256) →
    i < (aesEncryptFn P key nonce pt).length → v < 256 →
    v ≠ (aesEncryptFn P key nonce pt).getD i 0 →
    aesDecryptFn P key ((aesEncryptFn P key nonce pt).set i v) nonce = none

/-! ## Encryption service (`src/quantum_service/encryptor.py`, mock backend) -/

/-- The fields of the dictionary returned by `encryptor.kyber_encrypt_mock`
that carry decryption material. -/
structure EncResult where
  ciphertext : List Nat
  encapsulatedKey : List Nat
  nonce : List Nat
  publicKey : List Char
  privateKey : List Char
deriving DecidableEq

/-- `encryptor.kyber_encrypt_mock`: derive an AES key from the mock shared
secret, AES-GCM encrypt, and embed the shared secret in the first 32 bytes of
the encapsulated data.  All `secrets.token_bytes` draws are parameters. -/
def Encryptor.kyberEncryptMock (P : Primitives) (plaintextBytes : List Nat)
    (mockPub mockPriv mockEncapsKey mockSharedSecret nonce : List Nat) : EncResult :=
  let aesKey := hkdfDeriveKey P mockSharedSecret
  let ciphertext := aesEncryptFn P aesKey nonce plaintextBytes
  let mockEncapsulatedData := mockSharedSecret ++ mockEncapsKey.drop 32
  { ciphertext := P.b64encode ciphertext
    encapsulatedKey := P.b64encode mockEncapsulatedData
    nonce := P.b64encode nonce
    publicKey := hexEncode mockPub
    privateKey := hexEncode mockPriv }

/-- `encryptor.encrypt` on the simulated backend (`LIBOQS_AVAILABLE` false):
an empty plaintext is rejected (`json_error` prints and exits, modelled as
`Except.error`); otherwise the UTF-8 bytes go through
`kyber_encrypt_mock`. -/
def Encryptor.encrypt (P : Primitives) (plaintext : List Char)
    (mockPub mockPriv mockEncapsKey mockSharedSecret nonce : List Nat) :
    Except Unit EncResult :=
  if plaintext = [] then .error ()
  else .ok (Encryptor.kyberEncryptMock P (strBytes plaintext)
    mockPub mockPriv mockEncapsKey mockSharedSecret nonce)

/-! ## Decryption service (`src/quantum_service/decryptor.py`, mock backend) -/

/-- Failure modes of `decryptor.kyber_decrypt_mock`, by the exception the
Python code would raise: a base64 decoding error, the `ValueError` of
`decrypt_and_verify` on a tag mismatch (reported by `main` as an integrity
failure), or a `UnicodeDecodeError` on the decrypted bytes. -/
inductive DecError where
  | base64Error
  | integrityFailure
  | unicodeError
deriving DecidableEq

/-- `decryptor.kyber_decrypt_mock`: base64-decode the three inputs, read the
mock shared secret out of the first 32 bytes of the encapsulated data,
re-derive the AES key, and AES-GCM decrypt.  The private key argument is
unused, exactly as in the source. -/
def Decryptor.kyberDecryptMock (P : Primitives)
    (ciphertextB64 encapsB64 nonceB64 : List Nat) (privateKeyHex : List Char) :
    Except DecError (List Char) :=
  match P.b64decode ciphertextB64 with
  | none => .error .base64Error
  | some ciphertext =>
    match P.b64decode encapsB64 with
    | none => .error .base64Error
    | some encapsulatedData =>
      match P.b64decode nonceB64 with
      | none => .error .base64Error
      | some nonce =>
        let mockSharedSecret := encapsulatedData.take 32
        let aesKey := hkdfDeriveKey P mockSharedSecret
        match aesDecryptFn P aesKey ciphertext nonce with
        | none => .error .integrityFailure
        | some plaintext =>
          match decodeUtf8Model plaintext with
          | none => .error .unicodeError
          | some s => .ok s

/-! ## Signature service (`src/quantum_service/signer.py`, mock backend) -/

/-- `QuantumConfig.MOCK_HMAC_KEY` from config.py. -/
def Signer.MOCK_HMAC_KEY : List Nat :=
  asciiBytes "QUANTUM_MOCK_KEY_DO_NOT_USE_IN_PRODUCTION_12345"

/-- The cryptographic fields of the dictionary returned by
`signer.sign_mock`. -/
structure SignResult where
  signatureHex : List Char
  publicKeyHex : List Char
  privateKeyHex : List Char
  dataHash : List Char
deriving DecidableEq

/-- `signer.sign_mock`: HMAC-SHA512 of the data under the fixed mock key,
extended with the SHA-512 of the (random) mock public key, repeated 26 times
and trimmed to the Dilithium3 signature size of 3293 bytes; everything is
reported hex-encoded. -/
def Signer.signMock (P : Primitives) (data : List Nat)
    (mockPriv mockPub : List Nat) : SignResult :=
  let signature := P.hmacSha512 Signer.MOCK_HMAC_KEY data
  let extendedSig := signature ++ P.sha512 mockPub
  let mockSignature := ((List.replicate 26 extendedSig).flatten).take 3293
  { signatureHex := hexEncode mockSignature
    publicKeyHex := hexEncode mockPub
    privateKeyHex := hexEncode mockPriv
    dataHash := hexEncode (P.sha256 data) }

/-- `signer.verify_mock`: hex-decode the signature (**unguarded** in the
source — a non-hex signature raises `ValueError`, modelled as
`Except.error`), recompute the HMAC and compare it with the first 64 bytes.
The public key argument is never used. -/
def Signer.verifyMock (P : Primitives) (data : List Nat)
    (signatureHex : List Char) (publicKeyHex : List Char) : Except Unit Bool :=
  match hexToBytes signatureHex with
  | none => .error ()
  | some signature =>
    .ok (decide (signature.take 64 = P.hmacSha512 Signer.MOCK_HMAC_KEY data))

/-! ## Server-side crypto simulations (`src/server.py`) -/

/-- The fields of the dictionary returned by `server.kyber_encrypt` that the
booking transaction stores. -/
structure KyberResult where
  capsule : List Nat
  encryptedData : List Char
  nonce : List Char
deriving DecidableEq

/-- `server.kyber_encrypt` on the `CRYPTO_AVAILABLE` path: AES-256-GCM of the
passport bytes under a fresh key, plus a simulated Kyber capsule holding 768
random bytes followed by the AES key XOR-masked with a fixed SHA-256
pattern.  Random draws (`aes_key`, `nonce`, `capsule_data`) are
parameters. -/
def Server.kyberEncrypt (P : Primitives) (passportData : List Char)
    (aesKey nonce capsuleData : List Nat) : KyberResult :=
  let encrypted := aesEncryptFn P aesKey nonce (strBytes passportData)
  let mockKeyMask := P.sha256 (asciiBytes "QUANTUM_MOCK_KYBER_KEY")
  let maskedKey := xorBytes aesKey mockKeyMask
  { capsule := P.b64encode (capsuleData ++ maskedKey)
    encryptedData := hexEncode encrypted
    nonce := hexEncode nonce }

/-- The fields of the dictionary returned by `server.dilithium_sign` that the
booking transaction stores. -/
structure DilithiumResult where
  signature : List Nat
  dataHash : List Char
deriving DecidableEq

/-- The message `f"{booking_ref}|{seat_id}|{flight_id}|{passenger_name}"`
signed and verified by the server, as UTF-8 bytes. -/
def Server.buildMessage (bookingRef : List Char) (seatId flightId : Nat)
    (passengerName : List Char) : List Nat :=
  strBytes bookingRef ++ asciiBytes "|" ++ asciiBytes (toString seatId)
    ++ asciiBytes "|" ++ asciiBytes (toString flightId) ++ asciiBytes "|"
    ++ strBytes passengerName

/-- `server.dilithium_sign`: HMAC-SHA512 of the message under a key derived
by SHA-256 from a fixed string, extended with 3000 random padding bytes and
base64-encoded; the data hash is the SHA-256 hexdigest of the message. -/
def Server.dilithiumSign (P : Primitives) (bookingRef : List Char)
    (seatId flightId : Nat) (passengerName : List Char) (padding : List Nat) :
    DilithiumResult :=
  let message := Server.buildMessage bookingRef seatId flightId passengerName
  let mockPrivateKey := P.sha256 (asciiBytes "QUANTUM_DILITHIUM_PRIVATE_KEY")
  let signatureBytes := P.hmacSha512 mockPrivateKey message
  { signature := P.b64encode (signatureBytes ++ padding)
    dataHash := hexEncode (P.sha256 message) }

/-- `server.dilithium_verify`: check the SHA-256 hexdigest of the rebuilt
message against the stored hash, then base64-decode the stored signature
(inside `try`/`except`, so a decode failure returns `False`) and compare its
first 64 bytes with the recomputed HMAC.  Total: every failure mode returns
`false`. -/
def Server.dilithiumVerify (P : Primitives) (bookingRef : List Char)
    (seatId flightId : Nat) (passengerName : List Char)
    (signature : List Nat) (dataHash : List Char) : Bool :=
  let message := Server.buildMessage bookingRef seatId flightId passengerName
  let expectedHash := hexEncode (P.sha256 message)
  if expectedHash ≠ dataHash then false
  else
    let mockPrivateKey := P.sha256 (asciiBytes "QUANTUM_DILITHIUM_PRIVATE_KEY")
    let expectedSig := P.hmacSha512 mockPrivateKey message
    match P.b64decode signature with
    | none => false
    | some storedSig => decide (storedSig.take 64 = expectedSig)

/-! ## Persistence model

Relational state as seen by the booking transaction: the `flights`, `seats`
and `bookings` tables (`init_db.py`), with the columns `create_booking` and
`verify_ticket` touch. -/

structure Seat where
  id : Nat
  flightId : Nat
  rowNum : List Char
  colNum : List Char
  seatClass : List Char
  isBooked : Bool
deriving DecidableEq

structure Flight where
  id : Nat
  flightNumber : List Char
  origin : List Char
  destination : List Char
deriving DecidableEq

structure BookingRow where
  seatId : Nat
  flightId : Nat
  pqcRef : List Char
  passengerName : List Char
  kyberCapsule : List Nat
  passportEnc : List Char
  encryptionNonce : List Char
  pqcSignature : List Nat
  ticketDataHash : List Char
deriving DecidableEq

structure DBState where
  flights : List Flight
  seats : List Seat
  bookings : List BookingRow
deriving DecidableEq

/-- The `SELECT ... FROM seats WHERE flight_id = %s AND row_num = %s AND
col_num = %s FOR UPDATE` row lookup (the row lock serializes concurrent
attempts; its effect is that each `create_booking` runs atomically). -/
def findSeat (db : DBState) (flightId : Nat) (rowNum colNum : List Char) : Option Seat :=
  db.seats.find? (fun s => s.flightId == flightId && s.rowNum == rowNum && s.colNum == colNum)

/-- The flight lookup used for the success response. -/
def findFlight (db : DBState) (flightId : Nat) : Option Flight :=
  db.flights.find? (fun f => f.id == flightId)

/-! ## Booking orchestrator (`server.create_booking`) -/

/-- A parsed booking request body (all five JSON fields present). -/
structure BookRequest where
  flightId : Nat
  row : List Char
  col : List Char
  name : List Char
  passport : List Char
deriving DecidableEq

deriving instance DecidableEq for Except

/-- Results of the three cryptographic calls made inside the transaction
(`generate_quantum_entropy`, `kyber_encrypt`, `dilithium_sign`), in call
order.  `Except.error` models the call raising an exception (the fault the
spec injects); the surrounding handler then rolls the transaction back. -/
structure CryptoCalls where
  entropy : Except Unit (List Char)
  kyber : Except Unit KyberResult
  dilithium : Except Unit DilithiumResult
deriving DecidableEq

/-- All three in-transaction calls returned normally. -/
def CryptoCalls.allOk (c : CryptoCalls) : Bool :=
  c.entropy.isOk && c.kyber.isOk && c.dilithium.isOk

/-- Outcomes of `create_booking`, by response branch. -/
inductive BookOutcome where
  | validationError
  | seatNotFound
  | seatAlreadyBooked
  | serverError
  | success (bookingId : Nat) (bookingRef : List Char)
deriving DecidableEq

/-- The HTTP status code attached to each `create_booking` response. -/
def statusCode : BookOutcome → Nat
  | .validationError => 400
  | .seatNotFound => 404
  | .seatAlreadyBooked => 409
  | .serverError => 500
  | .success _ _ => 201

/-- Whether an outcome is the 201 success. -/
def BookOutcome.isSuccess : BookOutcome → Bool
  | .success _ _ => true
  | _ => false

/-- `server.create_booking`, one atomic run (the `FOR UPDATE` row lock holds
for the whole body, so concurrent invocations serialize).  Steps, as in the
source: reject missing/falsy fields (400); normalize the column to uppercase
and strip name and passport; lock and fetch the seat row, 404 if absent, 409
if already booked; run the three cryptographic calls — any raising call
aborts with a rollback (500); update the seat flag, insert the booking row
(`lastrowid` modelled as one past the current booking count), fetch the
flight for the response — a missing flight raises on `None` and rolls back —
then commit. -/
def Server.createBooking (db : DBState) (req : BookRequest) (calls : CryptoCalls) :
    BookOutcome × DBState :=
  if req.flightId = 0 ∨ req.row = [] ∨ req.col = [] ∨ req.name = [] ∨ req.passport = [] then
    (.validationError, db)
  else
    let rowNum := req.row
    let colNum := upperChars req.col
    let passengerName := trimChars req.name
    match findSeat db req.flightId rowNum colNum with
    | none => (.seatNotFound, db)
    | some seat =>
      if seat.isBooked then (.seatAlreadyBooked, db)
      else
        match calls.entropy with
        | .error _ => (.serverError, db)
        | .ok qrngRef =>
          match calls.kyber with
          | .error _ => (.serverError, db)
          | .ok kyberResult =>
            match calls.dilithium with
            | .error _ => (.serverError, db)
            | .ok dilithiumResult =>
              let seats' := db.seats.map (fun s =>
                if s.id = seat.id then { s with isBooked := true } else s)
              let newBooking : BookingRow :=
                { seatId := seat.id
                  flightId := req.flightId
                  pqcRef := qrngRef
                  passengerName := passengerName
                  kyberCapsule := kyberResult.capsule
                  passportEnc := kyberResult.encryptedData
                  encryptionNonce := kyberResult.nonce
                  pqcSignature := dilithiumResult.signature
                  ticketDataHash := dilithiumResult.dataHash }
              match findFlight db req.flightId with
              | none => (.serverError, db)
              | some _ =>
                (.success (db.bookings.length + 1) qrngRef,
                  { db with seats := seats', bookings := db.bookings ++ [newBooking] })

/-- Sequential execution of several booking invocations.  Because each
invocation holds the exclusive row lock for its entire critical section, any
concurrent schedule of `create_booking` calls on the same seat is equivalent
to running them in some order one after the other; this function models that
serialization order. -/
def runBookings (db : DBState) : List (BookRequest × CryptoCalls) → List BookOutcome × DBState
  | [] => ([], db)
  | (req, calls) :: rest =>
    let step := Server.createBooking db req calls
    let next := runBookings step.2 rest
    (step.1 :: next.1, next.2)

/-- Number of booking rows stored for a given seat. -/
def countBookingsForSeat (db : DBState) (seatId : Nat) : Nat :=
  db.bookings.countP (fun b => b.seatId == seatId)

/-! ## Verification endpoint (`server.verify_ticket`) -/

/-- The joined lookup `SELECT ... FROM bookings b JOIN seats s JOIN flights f
WHERE b.pqc_ref = %s`: a row is produced only when the booking, its seat and
its flight all exist. -/
def lookupBookingJoined (db : DBState) (ref : List Char) :
    Option (BookingRow × Seat × Flight) :=
  match db.bookings.find? (fun b => b.pqcRef == ref) with
  | none => none
  | some b =>
    match db.seats.find? (fun s => s.id == b.seatId),
          db.flights.find? (fun f => f.id == b.flightId) with
    | some s, some f => some (b, s, f)
    | _, _ => none

/-- Outcomes of `verify_ticket`: a 400 for a missing reference field, the
successful "Booking not found" response carrying `verified = false` and no
ticket, or the successful verification response carrying the signature check
result. -/
inductive VerifyOutcome where
  | badRequest
  | notFound
  | verifiedResult (verified : Bool)
deriving DecidableEq

/-- The `verified` flag of the JSON body, when the response is a success. -/
def VerifyOutcome.verifiedFlag : VerifyOutcome → Option Bool
  | .badRequest => none
  | .notFound => some false
  | .verifiedResult v => some v

/-- Whether the response is an error response (non-2xx). -/
def VerifyOutcome.isErrorResp : VerifyOutcome → Bool
  | .badRequest => true
  | _ => false

/-- `server.verify_ticket`: 400 when the body has no `booking_ref`;
otherwise strip and uppercase the reference, run the joined lookup, answer
`verified = false` (still HTTP 200) when nothing matches, and otherwise
report the result of `dilithium_verify` on the stored row. -/
def Server.verifyTicket (P : Primitives) (db : DBState)
    (bookingRefInput : Option (List Char)) : VerifyOutcome :=
  match bookingRefInput with
  | none => .badRequest
  | some raw =>
    let ref := upperChars (trimChars raw)
    match lookupBookingJoined db ref with
    | none => .notFound
    | some (b, _, _) =>
      .verifiedResult (Server.dilithiumVerify P b.pqcRef b.seatId b.flightId
        b.passengerName b.pqcSignature b.ticketDataHash)

/-! ## A concrete instance of the primitives

`demoPrimitives` is a small executable stand-in satisfying every law of
`Primitives` (digest lengths, byte-valued output, round trips), used to
evaluate the model on concrete inputs.  Its "tag" is a 16-byte checksum so
that the AEAD single-byte-flip contract is actually provable for it. -/

/-- Tag of the demo AEAD: one checksum byte over plaintext, key and nonce,
then fifteen zero bytes. -/
def demoTag (key nonce ct : List Nat) : List Nat :=
  ((ct.sum + key.sum + nonce.sum) % 256) :: List.replicate 15 0

/-- Demo digest: byte-reduce the message, pad, truncate to the digest
length. -/
def demoDigest (pad : Nat) (len : Nat) (m : List Nat) : List Nat :=
  (m.map (fun b => b % 256) ++ List.replicate len pad).take len

theorem demoDigest_length (pad len : Nat) (m : List Nat) :
    (demoDigest pad len m).length = len := by
  simp [demoDigest, List.length_take]

theorem demoDigest_lt (pad len : Nat) (hpad : pad < 256) (m : List Nat) :
    ∀ b ∈ demoDigest pad len m, b < 256 := by
  intro b hb
  rcases List.mem_append.1 (List.mem_of_mem_take hb) with h | h
  · rcases List.mem_map.1 h with ⟨x, _, rfl⟩
    exact Nat.mod_lt _ (by omega)
  · rw [List.eq_of_mem_replicate h]; exact hpad

/-- The executable demo instance of `Primitives`. -/
def demoPrimitives : Primitives where
  hmacSha256 := fun k m => demoDigest 0 32 (m ++ k)
  hmacSha512 := fun k m => demoDigest 0 64 (m ++ k)
  sha256 := fun m => demoDigest 1 32 m
  sha512 := fun m => demoDigest 1 64 m
  gcmEncryptDigest := fun k n p => (p, demoTag k n p)
  gcmDecryptVerify := fun k n c t => if t = demoTag k n c then some c else none
  b64encode := fun x => x
  b64decode := fun x => some x
  hmacSha256_len := fun k m => demoDigest_length 0 32 (m ++ k)
  hmacSha512_len := fun k m => demoDigest_length 0 64 (m ++ k)
  sha256_len := fun m => demoDigest_length 1 32 m
  sha512_len := fun m => demoDigest_length 1 64 m
  hmacSha512_lt := fun k m => demoDigest_lt 0 64 (by omega) (m ++ k)
  sha512_lt := fun m => demoDigest_lt 1 64 (by omega) m
  gcm_tag_len := fun _ _ _ => by simp [demoTag]
  gcm_roundtrip := fun _ _ _ => by simp
  b64_roundtrip := fun _ => rfl

/-! ## Sample data for concrete evaluations

A one-flight, one-seat database mirroring the scenario of the spec
("flight 1, seat row 5 column A, passenger Ada Lovelace, document
P000111"), with small explicit stand-ins for the random draws. -/

def sampleFlight : Flight :=
  { id := 1, flightNumber := "QA100".toList, origin := "AAA".toList,
    destination := "BBB".toList }

def sampleSeatFree : Seat :=
  { id := 1, flightId := 1, rowNum := "5".toList, colNum := "A".toList,
    seatClass := "economy".toList, isBooked := false }

def sampleSeatBooked : Seat := { sampleSeatFree with isBooked := true }

def sampleDBFree : DBState :=
  { flights := [sampleFlight], seats := [sampleSeatFree], bookings := [] }

def sampleDBBooked : DBState :=
  { flights := [sampleFlight], seats := [sampleSeatBooked], bookings := [] }

def sampleRequest : BookRequest :=
  { flightId := 1, row := "5".toList, col := "a".toList,
    name := "Ada Lovelace".toList, passport := "P000111".toList }

def sampleRef : List Char := Server.generateQuantumEntropy (List.replicate 12 0)

def sampleKyberResult : KyberResult :=
  Server.kyberEncrypt demoPrimitives "P000111".toList (List.replicate 32 0)
    (List.replicate 12 0) []

def sampleDilithiumResult : DilithiumResult :=
  Server.dilithiumSign demoPrimitives sampleRef 1 1 "Ada Lovelace".toList []

def sampleCalls : CryptoCalls :=
  { entropy := .ok sampleRef, kyber := .ok sampleKyberResult,
    dilithium := .ok sampleDilithiumResult }

def sampleCallsFail : CryptoCalls :=
  { entropy := .ok sampleRef, kyber := .ok sampleKyberResult, dilithium := .error () }

def sampleBookingRow : BookingRow :=
  { seatId := 1, flightId := 1, pqcRef := "QREF-0000-0000-0000".toList,
    passengerName := "Ada Lovelace".toList, kyberCapsule := [], passportEnc := [],
    encryptionNonce := [], pqcSignature := [], ticketDataHash := [] }

/-! ## General lemmas about the encodings -/

theorem hexDigitVal_hexDigitLower : ∀ n < 16, hexDigitVal (hexDigitLower n) = some n := by
  decide

theorem hexToBytes_hexEncode (l : List Nat) (h : ∀ b ∈ l, b < 256) :
    hexToBytes (hexEncode l) = some l := by
  induction l with
  | nil => rfl
  | cons b rest ih =>
    have hb : b < 256 := h b (List.mem_cons_self b rest)
    have hhi : hexDigitVal (hexDigitLower (b / 16)) = some (b / 16) :=
      hexDigitVal_hexDigitLower _ (by omega)
    have hlo : hexDigitVal (hexDigitLower (b % 16)) = some (b % 16) :=
      hexDigitVal_hexDigitLower _ (by omega)
    have hrest := ih (fun x hx => h x (List.mem_cons_of_mem b hx))
    simp only [hexEncode, hexToBytes, hhi, hlo, hrest]
    have : 16 * (b / 16) + b % 16 = b := by omega
    rw [this]

theorem isValidChar_toNat (c : Char) : Nat.isValidChar c.toNat := c.valid

theorem decodeUtf8Model_strBytes (s : List Char) :
    decodeUtf8Model (strBytes s) = some s := by
  unfold decodeUtf8Model strBytes
  rw [if_pos]
  · rw [List.map_map]
    congr 1
    have : ∀ c ∈ s, (Char.ofNat ∘ Char.toNat) c = id c := by
      intro c _
      simp [Function.comp, Char.ofNat_toNat]
    rw [List.map_congr_left this, List.map_id]
  · intro b hb
    rcases List.mem_map.1 hb with ⟨c, _, rfl⟩
    exact isValidChar_toNat c

theorem aesDecryptFn_aesEncryptFn (P : Primitives) (key nonce pt : List Nat) :
    aesDecryptFn P key (aesEncryptFn P key nonce pt) nonce = some pt := by
  unfold aesDecryptFn aesEncryptFn
  have htag := P.gcm_tag_len key nonce pt
  have hlen : ((P.gcmEncryptDigest key nonce pt).1
      ++ (P.gcmEncryptDigest key nonce pt).2).length - 16
      = (P.gcmEncryptDigest key nonce pt).1.length := by
    simp [List.length_append, htag]
  rw [hlen, List.take_left, List.drop_left]
  exact P.gcm_roundtrip key nonce pt

theorem hexEncode_length (l : List Nat) : (hexEncode l).length = 2 * l.length := by
  induction l with
  | nil => rfl
  | cons b rest ih => simp [hexEncode, ih]; omega

/-- The uppercase hexadecimal alphabet. -/
def hexUpperDigits : List Char := "0123456789ABCDEF".toList

theorem upperChar_hexDigitLower_mem :
    ∀ n < 16, upperChar (hexDigitLower n) ∈ hexUpperDigits := by
  decide

theorem mem_upperChars_hexEncode (l : List Nat) (hl : ∀ b ∈ l, b < 256) :
    ∀ c ∈ upperChars (hexEncode l), c ∈ hexUpperDigits := by
  intro c hc
  rcases List.mem_map.1 hc with ⟨d, hd, rfl⟩
  clear hc
  induction l with
  | nil => simp [hexEncode] at hd
  | cons b rest ih =>
    have hb : b < 256 := hl b (List.mem_cons_self b rest)
    simp only [hexEncode, List.mem_cons] at hd
    rcases hd with rfl | hd
    · exact upperChar_hexDigitLower_mem _ (by omega)
    rcases hd with rfl | hd
    · exact upperChar_hexDigitLower_mem _ (by omega)
    · exact ih (fun x hx => hl x (List.mem_cons_of_mem b hx)) hd

/-! ## The demo instance satisfies the AEAD tamper-detection contract -/

theorem sum_set_add (l : List Nat) (i v : Nat) (h : i < l.length) :
    (l.set i v).sum + l.getD i 0 = l.sum + v := by
  induction l generalizing i with
  | nil => simp at h
  | cons a t ih =>
    cases i with
    | zero => simp [List.set, List.getD]; omega
    | succ j =>
      have hj : j < t.length := by simpa using h
      have := ih j hj
      simp only [List.set, List.sum_cons, List.getD_cons_succ]
      omega

theorem demoAEADIntegrity : AEADSingleFlipIntegrity demoPrimitives := by
  intro key nonce pt i v hbytes hi hv hne
  have henc : aesEncryptFn demoPrimitives key nonce pt = pt ++ demoTag key nonce pt := rfl
  rw [henc] at hi hne ⊢
  have htlen : (demoTag key nonce pt).length = 16 := by simp [demoTag]
  have hlen : (pt ++ demoTag key nonce pt).length = pt.length + 16 := by
    simp [List.length_append, htlen]
  by_cases hcase : i < pt.length
  · -- the flip lands in the ciphertext part
    rw [List.set_append_left _ _ hcase]
    have hslen : (pt.set i v).length = pt.length := List.length_set ..
    unfold aesDecryptFn
    have hlen2 : ((pt.set i v) ++ demoTag key nonce pt).length - 16 = pt.length := by
      simp [List.length_append, htlen, hslen]
    rw [hlen2, List.take_left' hslen, List.drop_left' hslen]
    have hold : (pt ++ demoTag key nonce pt).getD i 0 = pt.getD i 0 :=
      List.getD_append _ _ _ _ hcase
    rw [hold] at hne
    have holdmem : pt.getD i 0 < 256 := by
      rw [List.getD_eq_getElem _ _ hcase]
      exact hbytes _ (List.getElem_mem hcase)
    have hsum := sum_set_add pt i v hcase
    have hheads : ((pt.set i v).sum + key.sum + nonce.sum) % 256
        ≠ (pt.sum + key.sum + nonce.sum) % 256 := by omega
    show demoPrimitives.gcmDecryptVerify key nonce (pt.set i v) (demoTag key nonce pt) = none
    show (if demoTag key nonce pt = demoTag key nonce (pt.set i v) then
      some (pt.set i v) else none) = none
    rw [if_neg]
    intro heq
    have h2 : (pt.sum + key.sum + nonce.sum) % 256
        = ((pt.set i v).sum + key.sum + nonce.sum) % 256 := by
      have := congrArg (fun l => l.getD 0 0) heq
      simpa [demoTag] using this
    exact hheads h2.symm
  · -- the flip lands in the authentication tag
    have hple : pt.length ≤ i := Nat.le_of_not_lt hcase
    have hj : i - pt.length < 16 := by omega
    rw [List.set_append_right _ _ hple]
    have hslen : ((demoTag key nonce pt).set (i - pt.length) v).length = 16 := by
      rw [List.length_set]; exact htlen
    unfold aesDecryptFn
    have hlen2 : (pt ++ (demoTag key nonce pt).set (i - pt.length) v).length - 16
        = pt.length := by simp [List.length_append, hslen]
    rw [hlen2, List.take_left, List.drop_left]
    have hstored : (pt ++ demoTag key nonce pt).getD i 0
        = (demoTag key nonce pt).getD (i - pt.length) 0 :=
      List.getD_append_right _ _ _ _ hple
    rw [hstored] at hne
    show (if (demoTag key nonce pt).set (i - pt.length) v = demoTag key nonce pt then
      some pt else none) = none
    rw [if_neg]
    intro heq
    have hjlt : i - pt.length < (demoTag key nonce pt).length := by omega
    have hv' : ((demoTag key nonce pt).set (i - pt.length) v).getD (i - pt.length) 0 = v := by
      rw [List.getD_eq_getElem _ _ (by rw [List.length_set]; exact hjlt)]
      exact List.getElem_set_self _
    rw [heq] at hv'
    rw [List.getD_eq_getElem _ _ hjlt] at hv' hne
    exact hne hv'.symm

/-! ## Lemmas about the mock signer -/

theorem mockSignature_bytes (P : Primitives) (data mockPub : List Nat) :
    ∀ b ∈ ((List.replicate 26
        (P.hmacSha512 Signer.MOCK_HMAC_KEY data ++ P.sha512 mockPub)).flatten).take 3293,
      b < 256 := by
  intro b hb
  rcases List.mem_flatten.1 (List.mem_of_mem_take hb) with ⟨l, hl, hbl⟩
  rw [List.eq_of_mem_replicate hl] at hbl
  rcases List.mem_append.1 hbl with h | h
  · exact P.hmacSha512_lt _ _ _ h
  · exact P.sha512_lt _ _ h

theorem mockSignature_take64 (P : Primitives) (data mockPub : List Nat) :
    (((List.replicate 26
        (P.hmacSha512 Signer.MOCK_HMAC_KEY data ++ P.sha512 mockPub)).flatten).take 3293).take 64
      = P.hmacSha512 Signer.MOCK_HMAC_KEY data := by
  rw [List.take_take]
  have hmin : min 64 3293 = 64 := by norm_num
  rw [hmin]
  rw [show (26 : Nat) = 25 + 1 from rfl, List.replicate_succ, List.flatten_cons,
    List.append_assoc]
  exact List.take_left' (P.hmacSha512_len _ _)

theorem verifyMock_hexEncode (P : Primitives) (data sigBytes : List Nat) (pk : List Char)
    (h : ∀ b ∈ sigBytes, b < 256) :
    Signer.verifyMock P data (hexEncode sigBytes) pk
      = .ok (decide (sigBytes.take 64 = P.hmacSha512 Signer.MOCK_HMAC_KEY data)) := by
  unfold Signer.verifyMock
  rw [hexToBytes_hexEncode _ h]

/-- Mock verification accepts the signature produced by the mock signer for
the same data, whatever public key string is passed. -/
theorem verifyMock_signMock (P : Primitives) (data mockPriv mockPub : List Nat)
    (pk : List Char) :
    Signer.verifyMock P data (Signer.signMock P data mockPriv mockPub).signatureHex pk
      = .ok true := by
  show Signer.verifyMock P data (hexEncode _) pk = .ok true
  rw [verifyMock_hexEncode P data _ pk (mockSignature_bytes P data mockPub),
    mockSignature_take64 P data mockPub]
  simp

/-! ## Lemmas about the booking orchestrator -/

theorem createBooking_alreadyBooked (db : DBState) (req : BookRequest) (seat : Seat)
    (calls : CryptoCalls)
    (hval : ¬(req.flightId = 0 ∨ req.row = [] ∨ req.col = [] ∨ req.name = [] ∨
      req.passport = []))
    (hfind : findSeat db req.flightId req.row (upperChars req.col) = some seat)
    (hbooked : seat.isBooked = true) :
    Server.createBooking db req calls = (.seatAlreadyBooked, db) := by
  unfold Server.createBooking
  rw [if_neg hval]
  simp only [hfind, hbooked, if_true]

theorem createBooking_cryptoFail (db : DBState) (req : BookRequest) (seat : Seat)
    (calls : CryptoCalls)
    (hval : ¬(req.flightId = 0 ∨ req.row = [] ∨ req.col = [] ∨ req.name = [] ∨
      req.passport = []))
    (hfind : findSeat db req.flightId req.row (upperChars req.col) = some seat)
    (hunbooked : seat.isBooked = false)
    (hfail : calls.allOk = false) :
    Server.createBooking db req calls = (.serverError, db) := by
  unfold Server.createBooking
  rw [if_neg hval]
  simp only [hfind, hunbooked, Bool.false_eq_true, if_false]
  rcases calls with ⟨e, k, d⟩
  cases e with
  | error u => rfl
  | ok r =>
    cases k with
    | error u => rfl
    | ok kr =>
      cases d with
      | error u => rfl
      | ok dr => simp [CryptoCalls.allOk, Except.isOk, Except.toBool] at hfail

theorem createBooking_ok (db : DBState) (req : BookRequest) (seat : Seat) (flight : Flight)
    (r : List Char) (k : KyberResult) (d : DilithiumResult)
    (hval : ¬(req.flightId = 0 ∨ req.row = [] ∨ req.col = [] ∨ req.name = [] ∨
      req.passport = []))
    (hfind : findSeat db req.flightId req.row (upperChars req.col) = some seat)
    (hunbooked : seat.isBooked = false)
    (hflight : findFlight db req.flightId = some flight) :
    Server.createBooking db req ⟨.ok r, .ok k, .ok d⟩ =
      (.success (db.bookings.length + 1) r,
        { db with
          seats := db.seats.map (fun s =>
            if s.id = seat.id then { s with isBooked := true } else s)
          bookings := db.bookings ++
            [{ seatId := seat.id
               flightId := req.flightId
               pqcRef := r
               passengerName := trimChars req.name
               kyberCapsule := k.capsule
               passportEnc := k.encryptedData
               encryptionNonce := k.nonce
               pqcSignature := d.signature
               ticketDataHash := d.dataHash }] }) := by
  unfold Server.createBooking
  rw [if_neg hval]
  simp only [hfind, hunbooked, Bool.false_eq_true, if_false, hflight]

theorem findSeat_after_update (db : DBState) (fid : Nat) (rowNum colNum : List Char)
    (seat : Seat)
    (hfind : findSeat db fid rowNum colNum = some seat) :
    (db.seats.map (fun s => if s.id = seat.id then { s with isBooked := true } else s)).find?
        (fun s => s.flightId == fid && s.rowNum == rowNum && s.colNum == colNum)
      = some { seat with isBooked := true } := by
  rw [List.find?_map]
  have hcomp : ((fun s : Seat => s.flightId == fid && s.rowNum == rowNum && s.colNum == colNum)
      ∘ (fun s => if s.id = seat.id then { s with isBooked := true } else s))
      = (fun s : Seat => s.flightId == fid && s.rowNum == rowNum && s.colNum == colNum) := by
    funext s
    by_cases h : s.id = seat.id <;> simp [Function.comp, h]
  rw [hcomp]
  unfold findSeat at hfind
  rw [hfind]
  simp

theorem countP_replicate {α : Type} (p : α → Bool) (n : Nat) (a : α) :
    (List.replicate n a).countP p = if p a then n else 0 := by
  induction n with
  | zero => simp
  | succ m ih =>
    rw [List.replicate_succ, List.countP_cons, ih]
    by_cases h : p a <;> simp [h]

theorem runBookings_allBooked (fid : Nat) (rowNum colNum : List Char) (seat : Seat)
    (db : DBState)
    (invs : List (BookRequest × CryptoCalls))
    (hinvs : ∀ ic ∈ invs, ic.1.flightId = fid ∧ ic.1.row = rowNum ∧ ic.1.col = colNum ∧
      ic.1.name ≠ [] ∧ ic.1.passport ≠ [])
    (hfid : fid ≠ 0) (hrow : rowNum ≠ []) (hcol : colNum ≠ [])
    (hfind : findSeat db fid rowNum (upperChars colNum) = some seat)
    (hbooked : seat.isBooked = true) :
    runBookings db invs = (List.replicate invs.length .seatAlreadyBooked, db) := by
  induction invs with
  | nil => rfl
  | cons ic rest ih =>
    obtain ⟨h1, h2, h3, h4, h5⟩ := hinvs ic (List.mem_cons_self ic rest)
    have hstep : Server.createBooking db ic.1 ic.2 = (.seatAlreadyBooked, db) := by
      apply createBooking_alreadyBooked db ic.1 seat ic.2
      · rw [h1, h2, h3]; push_neg; exact ⟨hfid, hrow, hcol, h4, h5⟩
      · rw [h1, h2, h3]; exact hfind
      · exact hbooked
    have hrest := ih (fun x hx => hinvs x (List.mem_cons_of_mem ic hx))
    unfold runBookings
    rw [hstep]
    simp only [hrest, List.length_cons, List.replicate_succ]

/-! ## Claim C4 -/

/-- C4: if the seat identified by (flightID, row, column) exists and its
`is_booked` flag is already true, `create_booking` aborts (rolls back and
leaves the stored state unchanged) and returns the SeatAlreadyBooked outcome
with HTTP status 409. -/
theorem C4_already_booked_conflict (db : DBState) (req : BookRequest) (seat : Seat)
    (calls : CryptoCalls)
    (hfid : req.flightId ≠ 0) (hrow : req.row ≠ []) (hcol : req.col ≠ [])
    (hname : req.name ≠ []) (hpass : req.passport ≠ [])
    (hfind : findSeat db req.flightId req.row (upperChars req.col) = some seat)
    (hbooked : seat.isBooked = true) :
    Server.createBooking db req calls = (.seatAlreadyBooked, db) ∧
      statusCode (Server.createBooking db req calls).1 = 409 := by
  have h := createBooking_alreadyBooked db req seat calls
    (by push_neg; exact ⟨hfid, hrow, hcol, hname, hpass⟩) hfind hbooked
  exact ⟨h, by rw [h]; rfl⟩

/-- Witness for C4 at the sample database whose only seat is booked. -/
theorem C4_witness :
    (sampleRequest.flightId ≠ 0 ∧ sampleRequest.row ≠ [] ∧ sampleRequest.col ≠ [] ∧
      sampleRequest.name ≠ [] ∧ sampleRequest.passport ≠ [] ∧
      findSeat sampleDBBooked sampleRequest.flightId sampleRequest.row
        (upperChars sampleRequest.col) = some sampleSeatBooked ∧
      sampleSeatBooked.isBooked = true) ∧
    (Server.createBooking sampleDBBooked sampleRequest sampleCalls
        = (.seatAlreadyBooked, sampleDBBooked) ∧
      statusCode (Server.createBooking sampleDBBooked sampleRequest sampleCalls).1 = 409) :=
  ⟨⟨by decide, by decide, by decide, by decide, by decide, by decide, by decide⟩,
    C4_already_booked_conflict sampleDBBooked sampleRequest sampleSeatBooked sampleCalls
      (by decide) (by decide) (by decide) (by decide) (by decide) (by decide) (by decide)⟩

/-! ## Claim C2 -/

/-- C2: if any of the three cryptographic calls made inside the booking
transaction raises after the seat row has been locked and found unbooked,
the transaction rolls back before any mutation: the outcome is the generic
500, the state is exactly the pre-transaction state, the seat is still the
same unbooked row, and the number of booking rows for the seat is
unchanged. -/
theorem C2_crypto_failure_rollback (db : DBState) (req : BookRequest) (seat : Seat)
    (calls : CryptoCalls)
    (hfid : req.flightId ≠ 0) (hrow : req.row ≠ []) (hcol : req.col ≠ [])
    (hname : req.name ≠ []) (hpass : req.passport ≠ [])
    (hfind : findSeat db req.flightId req.row (upperChars req.col) = some seat)
    (hunbooked : seat.isBooked = false)
    (hfail : calls.allOk = false) :
    Server.createBooking db req calls = (.serverError, db) ∧
      findSeat (Server.createBooking db req calls).2 req.flightId req.row
        (upperChars req.col) = some seat ∧
      (findSeat (Server.createBooking db req calls).2 req.flightId req.row
        (upperChars req.col)).map Seat.isBooked = some false ∧
      countBookingsForSeat (Server.createBooking db req calls).2 seat.id
        = countBookingsForSeat db seat.id := by
  have h := createBooking_cryptoFail db req seat calls
    (by push_neg; exact ⟨hfid, hrow, hcol, hname, hpass⟩) hfind hunbooked hfail
  refine ⟨h, ?_, ?_, ?_⟩
  · rw [h]; exact hfind
  · rw [h]; simp [hfind, hunbooked]
  · rw [h]

/-- Witness for C2: the signature call fails deterministically after the
encryption call succeeded, on the sample database with a free seat. -/
theorem C2_witness :
    (sampleRequest.flightId ≠ 0 ∧ sampleRequest.row ≠ [] ∧ sampleRequest.col ≠ [] ∧
      sampleRequest.name ≠ [] ∧ sampleRequest.passport ≠ [] ∧
      findSeat sampleDBFree sampleRequest.flightId sampleRequest.row
        (upperChars sampleRequest.col) = some sampleSeatFree ∧
      sampleSeatFree.isBooked = false ∧
      sampleCallsFail.allOk = false) ∧
    (Server.createBooking sampleDBFree sampleRequest sampleCallsFail
        = (.serverError, sampleDBFree) ∧
      findSeat (Server.createBooking sampleDBFree sampleRequest sampleCallsFail).2
        sampleRequest.flightId sampleRequest.row
        (upperChars sampleRequest.col) = some sampleSeatFree ∧
      (findSeat (Server.createBooking sampleDBFree sampleRequest sampleCallsFail).2
        sampleRequest.flightId sampleRequest.row
        (upperChars sampleRequest.col)).map Seat.isBooked = some false ∧
      countBookingsForSeat (Server.createBooking sampleDBFree sampleRequest
        sampleCallsFail).2 sampleSeatFree.id
        = countBookingsForSeat sampleDBFree sampleSeatFree.id) :=
  ⟨⟨by decide, by decide, by decide, by decide, by decide, by decide, by decide, by decide⟩,
    C2_crypto_failure_rollback sampleDBFree sampleRequest sampleSeatFree sampleCallsFail
      (by decide) (by decide) (by decide) (by decide) (by decide) (by decide) (by decide)
      (by decide)⟩

/-! ## Claim C9 -/

/-- C9: a verification request whose (normalized) booking reference matches
no stored booking row gets the successful "Booking not found" response:
`verified = false`, and not an error response. -/
theorem C9_unknown_reference (P : Primitives) (db : DBState) (raw : List Char)
    (hnone : db.bookings.find? (fun b => b.pqcRef == upperChars (trimChars raw)) = none) :
    Server.verifyTicket P db (some raw) = .notFound ∧
      (Server.verifyTicket P db (some raw)).verifiedFlag = some false ∧
      (Server.verifyTicket P db (some raw)).isErrorResp = false := by
  have h : Server.verifyTicket P db (some raw) = .notFound := by
    unfold Server.verifyTicket lookupBookingJoined
    simp only [hnone]
  exact ⟨h, by rw [h]; rfl, by rw [h]; rfl⟩

/-- Witness for C9: a fabricated reference against a database holding one
booking with a different reference. -/
theorem C9_witness :
    ({ sampleDBFree with bookings := [sampleBookingRow] } : DBState).bookings.find?
        (fun b => b.pqcRef == upperChars (trimChars " qref-1111-2222-3333 ".toList)) = none ∧
      (Server.verifyTicket demoPrimitives { sampleDBFree with bookings := [sampleBookingRow] }
          (some " qref-1111-2222-3333 ".toList) = .notFound ∧
        (Server.verifyTicket demoPrimitives { sampleDBFree with bookings := [sampleBookingRow] }
          (some " qref-1111-2222-3333 ".toList)).verifiedFlag = some false ∧
        (Server.verifyTicket demoPrimitives { sampleDBFree with bookings := [sampleBookingRow] }
          (some " qref-1111-2222-3333 ".toList)).isErrorResp = false) :=
  ⟨by decide,
    C9_unknown_reference demoPrimitives { sampleDBFree with bookings := [sampleBookingRow] }
      " qref-1111-2222-3333 ".toList (by decide)⟩

/-! ## Claim C10 -/

theorem createBooking_success_entropy (db : DBState) (req : BookRequest)
    (calls : CryptoCalls) (bid : Nat) (r : List Char) (db' : DBState)
    (hrun : Server.createBooking db req calls = (.success bid r, db')) :
    calls.entropy = .ok r := by
  rcases calls with ⟨e, k, d⟩
  unfold Server.createBooking at hrun
  by_cases hval : req.flightId = 0 ∨ req.row = [] ∨ req.col = [] ∨ req.name = [] ∨
      req.passport = []
  · rw [if_pos hval] at hrun
    exact absurd hrun (by simp)
  rw [if_neg hval] at hrun
  cases hseat : findSeat db req.flightId req.row (upperChars req.col) with
  | none => simp only [hseat] at hrun; exact absurd hrun (by simp)
  | some seat =>
    simp only [hseat] at hrun
    cases hb : seat.isBooked with
    | true => simp only [hb, if_true] at hrun; exact absurd hrun (by simp)
    | false =>
      simp only [hb, Bool.false_eq_true, if_false] at hrun
      cases e with
      | error u => exact absurd hrun (by simp)
      | ok r' =>
        cases k with
        | error u => exact absurd hrun (by simp)
        | ok kr =>
          cases d with
          | error u => exact absurd hrun (by simp)
          | ok dr =>
            cases hf : findFlight db req.flightId with
            | none => simp only [hf] at hrun; exact absurd hrun (by simp)
            | some fl =>
              simp only [hf] at hrun
              injection hrun with ha hb
              injection ha with h1 h2
              rw [h2]

/-- C10: every booking reference produced inside `create_booking` comes from
`generate_quantum_entropy` and has exactly the form QREF- followed by three
hyphen-separated groups of four uppercase hexadecimal characters, 19
characters in all; the alphabet is hexadecimal (it contains the visually
ambiguous 0 and 1), not the entropy service's ambiguity-free booking
alphabet. -/
theorem C10_qref_format (bs : List Nat) (db : DBState) (req : BookRequest)
    (calls : CryptoCalls) (bid : Nat) (r : List Char) (db' : DBState)
    (hlen : bs.length = 12) (hbytes : ∀ b ∈ bs, b < 256)
    (hentropy : calls.entropy = .ok (Server.generateQuantumEntropy bs))
    (hrun : Server.createBooking db req calls = (.success bid r, db')) :
    r = Server.generateQuantumEntropy bs ∧
      r.length = 19 ∧
      (∃ g1 g2 g3, r = "QREF-".toList ++ g1 ++ "-".toList ++ g2 ++ "-".toList ++ g3 ∧
        g1.length = 4 ∧ g2.length = 4 ∧ g3.length = 4 ∧
        (∀ c ∈ g1, c ∈ hexUpperDigits) ∧ (∀ c ∈ g2, c ∈ hexUpperDigits) ∧
        (∀ c ∈ g3, c ∈ hexUpperDigits)) ∧
      ('0' ∈ hexUpperDigits ∧ '1' ∈ hexUpperDigits ∧
        '0' ∉ Entropy.BOOKING_CHARSET ∧ '1' ∉ Entropy.BOOKING_CHARSET) := by
  have hr : r = Server.generateQuantumEntropy bs := by
    have h := createBooking_success_entropy db req calls bid r db' hrun
    rw [hentropy] at h
    injection h with h'
    exact h'.symm
  subst hr
  refine ⟨rfl, ?_, ?_, by decide, by decide, by decide, by decide⟩
  · have hhl : (upperChars (hexEncode bs)).length = 24 := by
      simp [upperChars, hexEncode_length, hlen]
    simp [Server.generateQuantumEntropy, List.length_take, List.length_drop, hhl]
  · refine ⟨(upperChars (hexEncode bs)).take 4,
      ((upperChars (hexEncode bs)).drop 4).take 4,
      ((upperChars (hexEncode bs)).drop 8).take 4, rfl, ?_, ?_, ?_, ?_, ?_, ?_⟩
    · have hhl : (upperChars (hexEncode bs)).length = 24 := by
        simp [upperChars, hexEncode_length, hlen]
      simp [List.length_take, hhl]
    · have hhl : (upperChars (hexEncode bs)).length = 24 := by
        simp [upperChars, hexEncode_length, hlen]
      simp [List.length_take, List.length_drop, hhl]
    · have hhl : (upperChars (hexEncode bs)).length = 24 := by
        simp [upperChars, hexEncode_length, hlen]
      simp [List.length_take, List.length_drop, hhl]
    · intro c hc
      exact mem_upperChars_hexEncode bs hbytes c (List.mem_of_mem_take hc)
    · intro c hc
      exact mem_upperChars_hexEncode bs hbytes c
        (List.mem_of_mem_drop (List.mem_of_mem_take hc))
    · intro c hc
      exact mem_upperChars_hexEncode bs hbytes c
        (List.mem_of_mem_drop (List.mem_of_mem_take hc))

/-- Witness for C10: a successful booking on the sample database with the
all-zero entropy bytes yields the reference QREF-0000-0000-0000. -/
theorem C10_witness :
    ((List.replicate 12 (0 : Nat)).length = 12 ∧
      (∀ b ∈ List.replicate 12 (0 : Nat), b < 256) ∧
      sampleCalls.entropy = .ok (Server.generateQuantumEntropy (List.replicate 12 0)) ∧
      Server.createBooking sampleDBFree sampleRequest sampleCalls
        = (.success 1 sampleRef,
          (Server.createBooking sampleDBFree sampleRequest sampleCalls).2)) ∧
    (sampleRef = Server.generateQuantumEntropy (List.replicate 12 0) ∧
      sampleRef.length = 19 ∧
      (∃ g1 g2 g3,
        sampleRef = "QREF-".toList ++ g1 ++ "-".toList ++ g2 ++ "-".toList ++ g3 ∧
        g1.length = 4 ∧ g2.length = 4 ∧ g3.length = 4 ∧
        (∀ c ∈ g1, c ∈ hexUpperDigits) ∧ (∀ c ∈ g2, c ∈ hexUpperDigits) ∧
        (∀ c ∈ g3, c ∈ hexUpperDigits)) ∧
      ('0' ∈ hexUpperDigits ∧ '1' ∈ hexUpperDigits ∧
        '0' ∉ Entropy.BOOKING_CHARSET ∧ '1' ∉ Entropy.BOOKING_CHARSET)) :=
  ⟨⟨by decide, by decide, rfl, by decide⟩,
    C10_qref_format (List.replicate 12 0) sampleDBFree sampleRequest sampleCalls 1
      sampleRef (Server.createBooking sampleDBFree sampleRequest sampleCalls).2
      (by decide) (by decide) rfl (by decide)⟩

/-! ## Claim C8 -/

theorem bitsAux_length (draws : Nat → Nat) (cs : List Char) :
    ∀ k num step, (Entropy.bitsAux draws cs k num step).length = k := by
  intro k
  induction k with
  | zero => intro num step; rfl
  | succ m ih =>
    intro num step
    simp only [Entropy.bitsAux]
    split <;> simp [ih]

theorem bitsAux_mem (draws : Nat → Nat) (cs : List Char) (hcs : cs ≠ []) :
    ∀ k num step, ∀ c ∈ Entropy.bitsAux draws cs k num step, c ∈ cs := by
  intro k
  have hpos : 0 < cs.length := List.length_pos.2 hcs
  induction k with
  | zero => intro num step c hc; simp [Entropy.bitsAux] at hc
  | succ m ih =>
    intro num step c hc
    have hd : cs.getD (num % cs.length) 'A' ∈ cs := by
      rw [List.getD_eq_getElem _ _ (Nat.mod_lt _ hpos)]
      exact List.getElem_mem _
    simp only [Entropy.bitsAux] at hc
    split at hc <;> rcases List.mem_cons.1 hc with rfl | hc' <;>
      first
        | exact hd
        | exact ih _ _ c hc'

/-- C8: the entropy service's booking reference always has the requested
length clamped into [4, 32] (a request of 8 keeps length 8, a request of 2 is
clamped to the minimum 4), and every character is drawn from the configured
alphabet, which excludes the visually ambiguous I, O, 0 and 1 — on both the
quantum-circuit path and the `secrets` path. -/
theorem C8_reference_shape (qiskitAvailable : Bool) (choice : Nat → Fin 32)
    (bits : List Bool) (draws : Nat → Nat) (len : Nat) :
    (Entropy.generateBookingReference qiskitAvailable choice bits draws len).length
        = Entropy.clampLength len ∧
      (∀ c ∈ Entropy.generateBookingReference qiskitAvailable choice bits draws len,
        c ∈ Entropy.BOOKING_CHARSET) ∧
      (4 ≤ Entropy.clampLength len ∧ Entropy.clampLength len ≤ 32) ∧
      Entropy.clampLength 8 = 8 ∧ Entropy.clampLength 2 = 4 ∧
      ('I' ∉ Entropy.BOOKING_CHARSET ∧ 'O' ∉ Entropy.BOOKING_CHARSET ∧
        '0' ∉ Entropy.BOOKING_CHARSET ∧ '1' ∉ Entropy.BOOKING_CHARSET) := by
  have hne : Entropy.BOOKING_CHARSET ≠ [] := by decide
  refine ⟨?_, ?_, ?_, by decide, by decide, by decide, by decide, by decide, by decide⟩
  · unfold Entropy.generateBookingReference
    cases qiskitAvailable with
    | true =>
      simp only [if_true]
      exact bitsAux_length draws Entropy.BOOKING_CHARSET _ _ _
    | false =>
      simp only [Bool.false_eq_true, if_false]
      simp [Entropy.generateQrngMock]
  · intro c hc
    unfold Entropy.generateBookingReference at hc
    cases qiskitAvailable with
    | true =>
      simp only [if_true] at hc
      exact bitsAux_mem draws Entropy.BOOKING_CHARSET hne _ _ _ c hc
    | false =>
      simp only [Bool.false_eq_true, if_false, Entropy.generateQrngMock] at hc
      rcases List.mem_map.1 hc with ⟨i, _, rfl⟩
      have h32 : (choice i).val < Entropy.BOOKING_CHARSET.length := by
        have := (choice i).isLt
        have hlen : Entropy.BOOKING_CHARSET.length = 32 := by decide
        omega
      rw [List.getD_eq_getElem _ _ h32]
      exact List.getElem_mem _
  · unfold Entropy.clampLength Entropy.MAX_LENGTH
    split
    · omega
    · split <;> omega

/-! ## Claim C3 -/

/-- C3 (amended): for every **non-empty** plaintext, decrypting the output of
the simulated-backend `encrypt` — its ciphertext, encapsulated key and nonce,
with any private key string — returns exactly the plaintext. -/
theorem C3_roundtrip_nonempty (P : Primitives) (plaintext : List Char)
    (mockPub mockPriv mockEncapsKey mockSharedSecret nonce : List Nat) (pk : List Char)
    (hne : plaintext ≠ []) (hsec : mockSharedSecret.length = 32) :
    ∃ r, Encryptor.encrypt P plaintext mockPub mockPriv mockEncapsKey mockSharedSecret
        nonce = .ok r ∧
      Decryptor.kyberDecryptMock P r.ciphertext r.encapsulatedKey r.nonce pk
        = .ok plaintext := by
  refine ⟨Encryptor.kyberEncryptMock P (strBytes plaintext) mockPub mockPriv mockEncapsKey
    mockSharedSecret nonce, ?_, ?_⟩
  · unfold Encryptor.encrypt
    rw [if_neg hne]
  · unfold Decryptor.kyberDecryptMock Encryptor.kyberEncryptMock
    simp only [P.b64_roundtrip, List.take_left' hsec, aesDecryptFn_aesEncryptFn,
      decodeUtf8Model_strBytes]

/-- C3 counterexample: the claim quantifies over every plaintext *including
the empty string*, but `encrypt("")` calls `json_error` (prints and exits)
instead of producing an encryption result, so the round trip fails at the
empty string. -/
theorem C3_counterexample_empty :
    Encryptor.encrypt demoPrimitives [] [] [] [] [] [] = .error () ∧
      ¬∃ r, Encryptor.encrypt demoPrimitives [] [] [] [] [] [] = .ok r ∧
        Decryptor.kyberDecryptMock demoPrimitives r.ciphertext r.encapsulatedKey r.nonce []
          = .ok [] := by
  refine ⟨rfl, ?_⟩
  rintro ⟨r, hr, _⟩
  rw [show Encryptor.encrypt demoPrimitives [] [] [] [] [] [] = .error () from rfl] at hr
  exact Except.noConfusion hr

/-- Witness for C3 at the demo primitives and the sample passport number. -/
theorem C3_witness :
    ("P000111".toList ≠ [] ∧ (List.replicate 32 (0 : Nat)).length = 32) ∧
      (∃ r, Encryptor.encrypt demoPrimitives "P000111".toList [] [] []
          (List.replicate 32 0) [] = .ok r ∧
        Decryptor.kyberDecryptMock demoPrimitives r.ciphertext r.encapsulatedKey r.nonce []
          = .ok "P000111".toList) :=
  ⟨⟨by decide, by decide⟩,
    C3_roundtrip_nonempty demoPrimitives "P000111".toList [] [] [] (List.replicate 32 0)
      [] [] (by decide) (by decide)⟩

/-! ## Claim C5 -/

/-- C5 (amended): mock verification accepts the (message, signature) pair
produced by the mock signer *regardless of the public key argument* (the
source never reads it); a message whose HMAC differs is rejected; and a
(valid-hex) signature whose **first 64 bytes** differ from the HMAC is
rejected.  Alterations confined to the public key, or to the signature
padding beyond byte 64, are not detected — see the counterexample. -/
theorem C5_signature_soundness_amended (P : Primitives) (data mockPriv mockPub : List Nat)
    (pk : List Char) :
    (∀ pk', Signer.verifyMock P data
        (Signer.signMock P data mockPriv mockPub).signatureHex pk' = .ok true) ∧
    (∀ data', P.hmacSha512 Signer.MOCK_HMAC_KEY data'
        ≠ P.hmacSha512 Signer.MOCK_HMAC_KEY data →
      Signer.verifyMock P data' (Signer.signMock P data mockPriv mockPub).signatureHex pk
        = .ok false) ∧
    (∀ sigBytes, (∀ b ∈ sigBytes, b < 256) →
      sigBytes.take 64 ≠ P.hmacSha512 Signer.MOCK_HMAC_KEY data →
      Signer.verifyMock P data (hexEncode sigBytes) pk = .ok false) := by
  refine ⟨fun pk' => verifyMock_signMock P data mockPriv mockPub pk', ?_, ?_⟩
  · intro data' hne
    show Signer.verifyMock P data' (hexEncode _) pk = .ok false
    rw [verifyMock_hexEncode P data' _ pk (mockSignature_bytes P data mockPub),
      mockSignature_take64 P data mockPub]
    have h : P.hmacSha512 Signer.MOCK_HMAC_KEY data
        ≠ P.hmacSha512 Signer.MOCK_HMAC_KEY data' := fun h => hne h.symm
    simp [h]
  · intro sigBytes hb hne
    rw [verifyMock_hexEncode P data sigBytes pk hb]
    simp [hne]

/-- C5 counterexample: altering the public key, or altering the signature
only beyond its first 64 bytes, does **not** make `verify_mock` return
false — it still returns true, contradicting "altering any one of the three
yields false". -/
theorem C5_counterexample :
    (Signer.verifyMock demoPrimitives (asciiBytes "msg")
        (Signer.signMock demoPrimitives (asciiBytes "msg") [2] [1]).signatureHex
        ['0', '0'] = .ok true ∧
      ['0', '0'] ≠ (Signer.signMock demoPrimitives (asciiBytes "msg") [2] [1]).publicKeyHex) ∧
    (Signer.verifyMock demoPrimitives (asciiBytes "msg")
        (hexEncode (demoPrimitives.hmacSha512 Signer.MOCK_HMAC_KEY (asciiBytes "msg") ++
          [77]))
        (Signer.signMock demoPrimitives (asciiBytes "msg") [2] [1]).publicKeyHex
        = .ok true ∧
      hexEncode (demoPrimitives.hmacSha512 Signer.MOCK_HMAC_KEY (asciiBytes "msg") ++ [77])
        ≠ (Signer.signMock demoPrimitives (asciiBytes "msg") [2] [1]).signatureHex) := by
  refine ⟨⟨verifyMock_signMock demoPrimitives (asciiBytes "msg") [2] [1] ['0', '0'],
    by decide⟩, ?_, ?_⟩
  · rw [verifyMock_hexEncode demoPrimitives (asciiBytes "msg") _ _ (by decide),
      List.take_left' (demoPrimitives.hmacSha512_len _ _)]
    simp
  · intro h
    have hsig : (Signer.signMock demoPrimitives (asciiBytes "msg") [2] [1]).signatureHex
        = hexEncode (((List.replicate 26 (demoPrimitives.hmacSha512 Signer.MOCK_HMAC_KEY
            (asciiBytes "msg") ++ demoPrimitives.sha512 [1])).flatten).take 3293) := rfl
    rw [hsig] at h
    have := congrArg List.length h
    rw [hexEncode_length, hexEncode_length] at this
    have h1 : (demoPrimitives.hmacSha512 Signer.MOCK_HMAC_KEY (asciiBytes "msg") ++
        [77]).length = 65 := by
      simp [List.length_append, demoPrimitives.hmacSha512_len]
    rw [h1] at this
    have h2 : (((List.replicate 26 (demoPrimitives.hmacSha512 Signer.MOCK_HMAC_KEY
        (asciiBytes "msg") ++ demoPrimitives.sha512 [1])).flatten).take 3293).length
        = 3293 := by
      rw [List.length_take]
      have : ((List.replicate 26 (demoPrimitives.hmacSha512 Signer.MOCK_HMAC_KEY
          (asciiBytes "msg") ++ demoPrimitives.sha512 [1])).flatten).length = 26 * 128 := by
        rw [List.length_flatten]
        rw [List.map_replicate, List.sum_replicate]
        simp [List.length_append, demoPrimitives.hmacSha512_len,
          demoPrimitives.sha512_len]
      rw [this]
      omega
    exact absurd (h2 ▸ this) (by norm_num)

/-- Witness for C5: concrete rejection of an altered message and of an
altered leading signature block, and concrete acceptance under an arbitrary
public key. -/
theorem C5_witness :
    Signer.verifyMock demoPrimitives (asciiBytes "msh")
        (Signer.signMock demoPrimitives (asciiBytes "msg") [2] [1]).signatureHex ['0', '1']
      = .ok false ∧
    Signer.verifyMock demoPrimitives (asciiBytes "msg")
        (hexEncode (List.replicate 64 5)) ['0', '1'] = .ok false ∧
    Signer.verifyMock demoPrimitives (asciiBytes "msg")
        (Signer.signMock demoPrimitives (asciiBytes "msg") [2] [1]).signatureHex ['9', '9']
      = .ok true := by
  have h := C5_signature_soundness_amended demoPrimitives (asciiBytes "msg") [2] [1]
    ['0', '1']
  exact ⟨h.2.1 (asciiBytes "msh") (by decide),
    h.2.2 (List.replicate 64 5) (by decide) (by decide), h.1 ['9', '9']⟩

/-! ## Claim C6 -/

/-- C6: under the AEAD authentication contract the spec attributes to
AES-GCM, flipping any single byte of the stored ciphertext — which carries
the appended 16-byte authentication tag — makes `kyber_decrypt_mock` fail
with the integrity-failure error (`decrypt_and_verify` raising
`ValueError`), and it never returns any plaintext for the tampered input. -/
theorem C6_tamper_detection (P : Primitives) (hP : AEADSingleFlipIntegrity P)
    (ptBytes mockPub mockPriv mockEncapsKey mockSharedSecret nonce : List Nat)
    (pk : List Char) (i v : Nat) (ct : List Nat)
    (hbytes : ∀ b ∈ ptBytes, b < 256)
    (hsec : mockSharedSecret.length = 32)
    (hct : P.b64decode (Encryptor.kyberEncryptMock P ptBytes mockPub mockPriv mockEncapsKey
      mockSharedSecret nonce).ciphertext = some ct)
    (hi : i < ct.length) (hv : v < 256) (hne : v ≠ ct.getD i 0) :
    Decryptor.kyberDecryptMock P (P.b64encode (ct.set i v))
        (Encryptor.kyberEncryptMock P ptBytes mockPub mockPriv mockEncapsKey
          mockSharedSecret nonce).encapsulatedKey
        (Encryptor.kyberEncryptMock P ptBytes mockPub mockPriv mockEncapsKey
          mockSharedSecret nonce).nonce pk
      = .error .integrityFailure ∧
    ∀ s, Decryptor.kyberDecryptMock P (P.b64encode (ct.set i v))
        (Encryptor.kyberEncryptMock P ptBytes mockPub mockPriv mockEncapsKey
          mockSharedSecret nonce).encapsulatedKey
        (Encryptor.kyberEncryptMock P ptBytes mockPub mockPriv mockEncapsKey
          mockSharedSecret nonce).nonce pk
      ≠ .ok s := by
  have hctx : ct = aesEncryptFn P (hkdfDeriveKey P mockSharedSecret) nonce ptBytes := by
    have hc : (Encryptor.kyberEncryptMock P ptBytes mockPub mockPriv mockEncapsKey
        mockSharedSecret nonce).ciphertext
        = P.b64encode (aesEncryptFn P (hkdfDeriveKey P mockSharedSecret) nonce ptBytes) :=
      rfl
    rw [hc, P.b64_roundtrip] at hct
    injection hct with h
    exact h.symm
  subst hctx
  have hmain : Decryptor.kyberDecryptMock P
      (P.b64encode ((aesEncryptFn P (hkdfDeriveKey P mockSharedSecret) nonce
        ptBytes).set i v))
      (Encryptor.kyberEncryptMock P ptBytes mockPub mockPriv mockEncapsKey
        mockSharedSecret nonce).encapsulatedKey
      (Encryptor.kyberEncryptMock P ptBytes mockPub mockPriv mockEncapsKey
        mockSharedSecret nonce).nonce pk = .error .integrityFailure := by
    unfold Decryptor.kyberDecryptMock Encryptor.kyberEncryptMock
    simp only [P.b64_roundtrip, List.take_left' hsec]
    rw [hP (hkdfDeriveKey P mockSharedSecret) nonce ptBytes i v hbytes hi hv hne]
  refine ⟨hmain, fun s h => ?_⟩
  rw [hmain] at h
  exact Except.noConfusion h

/-- Witness for C6: the demo primitives satisfy the AEAD contract, and
flipping the first ciphertext byte of a concrete encryption is rejected. -/
theorem C6_witness :
    (AEADSingleFlipIntegrity demoPrimitives ∧
      (∀ b ∈ [1, 2, 3], b < 256) ∧
      (List.replicate 32 (0 : Nat)).length = 32 ∧
      demoPrimitives.b64decode (Encryptor.kyberEncryptMock demoPrimitives [1, 2, 3] [] []
          [] (List.replicate 32 0) []).ciphertext
        = some (aesEncryptFn demoPrimitives
            (hkdfDeriveKey demoPrimitives (List.replicate 32 0)) [] [1, 2, 3]) ∧
      0 < (aesEncryptFn demoPrimitives
        (hkdfDeriveKey demoPrimitives (List.replicate 32 0)) [] [1, 2, 3]).length ∧
      (5 : Nat) < 256 ∧
      (5 : Nat) ≠ (aesEncryptFn demoPrimitives
        (hkdfDeriveKey demoPrimitives (List.replicate 32 0)) [] [1, 2, 3]).getD 0 0) ∧
    (Decryptor.kyberDecryptMock demoPrimitives
        (demoPrimitives.b64encode ((aesEncryptFn demoPrimitives
          (hkdfDeriveKey demoPrimitives (List.replicate 32 0)) [] [1, 2, 3]).set 0 5))
        (Encryptor.kyberEncryptMock demoPrimitives [1, 2, 3] [] [] []
          (List.replicate 32 0) []).encapsulatedKey
        (Encryptor.kyberEncryptMock demoPrimitives [1, 2, 3] [] [] []
          (List.replicate 32 0) []).nonce []
      = .error .integrityFailure ∧
      ∀ s, Decryptor.kyberDecryptMock demoPrimitives
        (demoPrimitives.b64encode ((aesEncryptFn demoPrimitives
          (hkdfDeriveKey demoPrimitives (List.replicate 32 0)) [] [1, 2, 3]).set 0 5))
        (Encryptor.kyberEncryptMock demoPrimitives [1, 2, 3] [] [] []
          (List.replicate 32 0) []).encapsulatedKey
        (Encryptor.kyberEncryptMock demoPrimitives [1, 2, 3] [] [] []
          (List.replicate 32 0) []).nonce []
      ≠ .ok s) :=
  ⟨⟨demoAEADIntegrity, by decide, by decide, rfl, by decide, by decide, by decide⟩,
    C6_tamper_detection demoPrimitives demoAEADIntegrity [1, 2, 3] [] [] []
      (List.replicate 32 0) [] [] 0 5
      (aesEncryptFn demoPrimitives (hkdfDeriveKey demoPrimitives (List.replicate 32 0))
        [] [1, 2, 3])
      (by decide) (by decide) rfl (by decide) (by decide) (by decide)⟩

/-! ## Claim C7 -/

/-- C7 (amended): verification raises in exactly one case and detects
tampering in exactly two places.  The mock signer's `verify_mock` raises a
`ValueError` (instead of returning false) whenever the signature is not
valid hexadecimal, because the source hex-decodes it outside any handler;
for a valid-hex signature it returns `ok` of the comparison of the first 64
decoded bytes against the recomputed HMAC — so it returns false when the
message or the first 64 signature bytes are altered, but returns **true**
when tampering is confined to the padding beyond byte 64.  The server's
`dilithium_verify` is total (every failure path is guarded and returns
false): it returns false when the rebuilt message's hash mismatches the
stored hash, yet it too accepts any alteration of the signature padding
beyond the first 64 decoded bytes. -/
theorem C7_verify_tamper_amended (P : Primitives) (data : List Nat)
    (pk sigHex : List Char) (bookingRef : List Char) (seatId flightId : Nat)
    (passengerName : List Char) (signature : List Nat) (dataHash : List Char) :
    (hexToBytes sigHex = none → Signer.verifyMock P data sigHex pk = .error ()) ∧
    (∀ sigBytes, (∀ b ∈ sigBytes, b < 256) →
      Signer.verifyMock P data (hexEncode sigBytes) pk
        = .ok (decide (sigBytes.take 64 = P.hmacSha512 Signer.MOCK_HMAC_KEY data))) ∧
    (∀ tail, (∀ b ∈ tail, b < 256) →
      Signer.verifyMock P data
        (hexEncode (P.hmacSha512 Signer.MOCK_HMAC_KEY data ++ tail)) pk = .ok true) ∧
    (hexEncode (P.sha256 (Server.buildMessage bookingRef seatId flightId passengerName))
        ≠ dataHash →
      Server.dilithiumVerify P bookingRef seatId flightId passengerName signature dataHash
        = false) ∧
    (∀ padding,
      Server.dilithiumVerify P bookingRef seatId flightId passengerName
        (P.b64encode (P.hmacSha512
            (P.sha256 (asciiBytes "QUANTUM_DILITHIUM_PRIVATE_KEY"))
            (Server.buildMessage bookingRef seatId flightId passengerName) ++ padding))
        (hexEncode (P.sha256
          (Server.buildMessage bookingRef seatId flightId passengerName))) = true) := by
  refine ⟨?_, ?_, ?_, ?_, ?_⟩
  · intro h
    unfold Signer.verifyMock
    rw [h]
  · intro sigBytes hb
    exact verifyMock_hexEncode P data sigBytes pk hb
  · intro tail htail
    have hb : ∀ b ∈ P.hmacSha512 Signer.MOCK_HMAC_KEY data ++ tail, b < 256 := by
      intro b hbm
      rcases List.mem_append.1 hbm with h' | h'
      · exact P.hmacSha512_lt _ _ _ h'
      · exact htail b h'
    rw [verifyMock_hexEncode P data _ pk hb, List.take_left' (P.hmacSha512_len _ _)]
    simp
  · intro hne
    unfold Server.dilithiumVerify
    simp [hne]
  · intro padding
    simp only [Server.dilithiumVerify]
    rw [if_neg (fun h => h rfl)]
    simp only [P.b64_roundtrip]
    rw [List.take_left' (P.hmacSha512_len _ _)]
    simp

/-- C7 counterexample: the claim fails in both directions at concrete
tampered inputs.  A tampered, non-hex signature makes `verify_mock` raise
(modelled `Except.error`) instead of returning false; and a valid-hex
signature tampered only beyond its first 64 decoded bytes makes
`dilithium_verify` return **true** — it differs from the signature the
signer stored, yet verification does not return false. -/
theorem C7_counterexample :
    (Signer.verifyMock demoPrimitives (asciiBytes "msg") ['Z', 'Z'] ['0', '1']
        = .error () ∧
      ∀ b, Signer.verifyMock demoPrimitives (asciiBytes "msg") ['Z', 'Z'] ['0', '1']
        ≠ .ok b) ∧
    (Server.dilithiumVerify demoPrimitives "QREF-0000-0000-0000".toList 1 1
        "Ada Lovelace".toList
        (demoPrimitives.b64encode (demoPrimitives.hmacSha512
          (demoPrimitives.sha256 (asciiBytes "QUANTUM_DILITHIUM_PRIVATE_KEY"))
          (Server.buildMessage "QREF-0000-0000-0000".toList 1 1 "Ada Lovelace".toList)
          ++ [42]))
        (Server.dilithiumSign demoPrimitives "QREF-0000-0000-0000".toList 1 1
          "Ada Lovelace".toList []).dataHash = true ∧
      demoPrimitives.b64encode (demoPrimitives.hmacSha512
          (demoPrimitives.sha256 (asciiBytes "QUANTUM_DILITHIUM_PRIVATE_KEY"))
          (Server.buildMessage "QREF-0000-0000-0000".toList 1 1 "Ada Lovelace".toList)
          ++ [42])
        ≠ (Server.dilithiumSign demoPrimitives "QREF-0000-0000-0000".toList 1 1
          "Ada Lovelace".toList []).signature) := by
  refine ⟨⟨rfl, fun b h => ?_⟩, by decide, by decide⟩
  rw [show Signer.verifyMock demoPrimitives (asciiBytes "msg") ['Z', 'Z'] ['0', '1']
    = .error () from rfl] at h
  exact Except.noConfusion h

/-- Witness for C7 at concrete tampered inputs: the raise on non-hex input,
rejection of a signature with wrong leading bytes, acceptance of a signature
tampered past byte 64, rejection on a hash mismatch, and acceptance of
altered dilithium padding. -/
theorem C7_witness :
    Signer.verifyMock demoPrimitives (asciiBytes "msg") ['Z', 'Z'] ['0', '1']
        = .error () ∧
      Signer.verifyMock demoPrimitives (asciiBytes "msg")
        (hexEncode (List.replicate 64 7)) ['0', '1'] = .ok false ∧
      Signer.verifyMock demoPrimitives (asciiBytes "msg")
        (hexEncode (demoPrimitives.hmacSha512 Signer.MOCK_HMAC_KEY (asciiBytes "msg")
          ++ [9])) ['0', '1'] = .ok true ∧
      Server.dilithiumVerify demoPrimitives "QREF-0000-0000-0000".toList 1 1
        "Ada Lovelace".toList [] "bad".toList = false ∧
      Server.dilithiumVerify demoPrimitives "QREF-0000-0000-0000".toList 1 1
        "Ada Lovelace".toList
        (demoPrimitives.b64encode (demoPrimitives.hmacSha512
          (demoPrimitives.sha256 (asciiBytes "QUANTUM_DILITHIUM_PRIVATE_KEY"))
          (Server.buildMessage "QREF-0000-0000-0000".toList 1 1 "Ada Lovelace".toList)
          ++ [42]))
        (hexEncode (demoPrimitives.sha256
          (Server.buildMessage "QREF-0000-0000-0000".toList 1 1 "Ada Lovelace".toList)))
        = true := by
  have h := C7_verify_tamper_amended demoPrimitives (asciiBytes "msg") ['0', '1']
    ['Z', 'Z'] "QREF-0000-0000-0000".toList 1 1 "Ada Lovelace".toList [] "bad".toList
  refine ⟨h.1 (by decide), ?_, h.2.2.1 [9] (by decide), h.2.2.2.1 (by decide),
    h.2.2.2.2 [42]⟩
  rw [h.2.1 (List.replicate 64 7) (by decide)]
  decide

/-! ## Claim C1 -/

/-- C1: N concurrent invocations of `create_booking` on the same
(flightID, row, column) serialize through the exclusive row lock; starting
from an unbooked seat (with no booking row), exactly one of them succeeds,
the other N−1 return SeatAlreadyBooked, and afterwards exactly one Booking
row exists for that seat and the seat's `is_booked` flag is true. -/
theorem C1_single_winner (db : DBState) (fid : Nat) (rowNum colNum : List Char)
    (seat : Seat) (flight : Flight) (invs : List (BookRequest × CryptoCalls))
    (hne : invs ≠ [])
    (hinvs : ∀ ic ∈ invs, ic.1.flightId = fid ∧ ic.1.row = rowNum ∧ ic.1.col = colNum ∧
      ic.1.name ≠ [] ∧ ic.1.passport ≠ [] ∧ ic.2.allOk = true)
    (hfid : fid ≠ 0) (hrow : rowNum ≠ []) (hcol : colNum ≠ [])
    (hfind : findSeat db fid rowNum (upperChars colNum) = some seat)
    (hunbooked : seat.isBooked = false)
    (hflight : findFlight db fid = some flight)
    (hnob : ∀ b ∈ db.bookings, b.seatId ≠ seat.id) :
    ((runBookings db invs).1.countP BookOutcome.isSuccess = 1) ∧
    ((runBookings db invs).1.countP (fun o => o == BookOutcome.seatAlreadyBooked)
      = invs.length - 1) ∧
    countBookingsForSeat (runBookings db invs).2 seat.id = 1 ∧
    (findSeat (runBookings db invs).2 fid rowNum (upperChars colNum)).map Seat.isBooked
      = some true := by
  rcases invs with _ | ⟨⟨req0, calls0⟩, rest⟩
  · exact absurd rfl hne
  have hmem := hinvs (req0, calls0) (List.mem_cons_self _ _)
  have hA : req0.flightId = fid := hmem.1
  have hB : req0.row = rowNum := hmem.2.1
  have hC : req0.col = colNum := hmem.2.2.1
  have hD : req0.name ≠ [] := hmem.2.2.2.1
  have hE : req0.passport ≠ [] := hmem.2.2.2.2.1
  have hF : calls0.allOk = true := hmem.2.2.2.2.2
  rcases calls0 with ⟨e, k, d⟩
  cases e with
  | error u => simp [CryptoCalls.allOk, Except.isOk, Except.toBool] at hF
  | ok r =>
  cases k with
  | error u => simp [CryptoCalls.allOk, Except.isOk, Except.toBool] at hF
  | ok kr =>
  cases d with
  | error u => simp [CryptoCalls.allOk, Except.isOk, Except.toBool] at hF
  | ok dr =>
  have hval : ¬(req0.flightId = 0 ∨ req0.row = [] ∨ req0.col = [] ∨ req0.name = [] ∨
      req0.passport = []) := by
    push_neg
    exact ⟨by rw [hA]; exact hfid, by rw [hB]; exact hrow, by rw [hC]; exact hcol, hD, hE⟩
  have hfind0 : findSeat db req0.flightId req0.row (upperChars req0.col) = some seat := by
    rw [hA, hB, hC]; exact hfind
  have hflight0 : findFlight db req0.flightId = some flight := by rw [hA]; exact hflight
  have hstep := createBooking_ok db req0 seat flight r kr dr hval hfind0 hunbooked hflight0
  have hfind1 : findSeat
      { db with
        seats := db.seats.map (fun s =>
          if s.id = seat.id then { s with isBooked := true } else s)
        bookings := db.bookings ++
          [{ seatId := seat.id
             flightId := req0.flightId
             pqcRef := r
             passengerName := trimChars req0.name
             kyberCapsule := kr.capsule
             passportEnc := kr.encryptedData
             encryptionNonce := kr.nonce
             pqcSignature := dr.signature
             ticketDataHash := dr.dataHash }] } fid rowNum (upperChars colNum)
      = some { seat with isBooked := true } :=
    findSeat_after_update db fid rowNum (upperChars colNum) seat hfind
  have hrest := runBookings_allBooked fid rowNum colNum { seat with isBooked := true }
    { db with
      seats := db.seats.map (fun s =>
        if s.id = seat.id then { s with isBooked := true } else s)
      bookings := db.bookings ++
        [{ seatId := seat.id
           flightId := req0.flightId
           pqcRef := r
           passengerName := trimChars req0.name
           kyberCapsule := kr.capsule
           passportEnc := kr.encryptedData
           encryptionNonce := kr.nonce
           pqcSignature := dr.signature
           ticketDataHash := dr.dataHash }] } rest
    (fun x hx => by
      obtain ⟨a, b, c, d', e', _⟩ := hinvs x (List.mem_cons_of_mem _ hx)
      exact ⟨a, b, c, d', e'⟩)
    hfid hrow hcol hfind1 rfl
  have hrun : runBookings db ((req0, (⟨.ok r, .ok kr, .ok dr⟩ : CryptoCalls)) :: rest)
      = (BookOutcome.success (db.bookings.length + 1) r ::
          List.replicate rest.length .seatAlreadyBooked,
        { db with
          seats := db.seats.map (fun s =>
            if s.id = seat.id then { s with isBooked := true } else s)
          bookings := db.bookings ++
            [{ seatId := seat.id
               flightId := req0.flightId
               pqcRef := r
               passengerName := trimChars req0.name
               kyberCapsule := kr.capsule
               passportEnc := kr.encryptedData
               encryptionNonce := kr.nonce
               pqcSignature := dr.signature
               ticketDataHash := dr.dataHash }] }) := by
    simp only [runBookings]
    rw [hstep]
    simp only []
    rw [hrest]
  rw [hrun]
  refine ⟨?_, ?_, ?_, ?_⟩
  · simp [List.countP_cons, countP_replicate, BookOutcome.isSuccess]
  · simp [List.countP_cons, countP_replicate]
  · unfold countBookingsForSeat
    simp only [List.countP_append]
    have hzero : db.bookings.countP (fun b => b.seatId == seat.id) = 0 :=
      List.countP_eq_zero.2 (fun b hb => by simp [hnob b hb])
    rw [hzero]
    simp
  · rw [hfind1]
    rfl

/-- Witness for C1: three invocations on the same free seat of the sample
database — one success, two SeatAlreadyBooked, one booking row, seat flag
set. -/
theorem C1_witness :
    (([(sampleRequest, sampleCalls), (sampleRequest, sampleCalls),
        (sampleRequest, sampleCalls)] : List (BookRequest × CryptoCalls)) ≠ [] ∧
      (∀ ic ∈ ([(sampleRequest, sampleCalls), (sampleRequest, sampleCalls),
          (sampleRequest, sampleCalls)] : List (BookRequest × CryptoCalls)),
        ic.1.flightId = 1 ∧ ic.1.row = "5".toList ∧ ic.1.col = "a".toList ∧
        ic.1.name ≠ [] ∧ ic.1.passport ≠ [] ∧ ic.2.allOk = true) ∧
      (1 : Nat) ≠ 0 ∧ "5".toList ≠ ([] : List Char) ∧ "a".toList ≠ ([] : List Char) ∧
      findSeat sampleDBFree 1 "5".toList (upperChars "a".toList) = some sampleSeatFree ∧
      sampleSeatFree.isBooked = false ∧
      findFlight sampleDBFree 1 = some sampleFlight ∧
      (∀ b ∈ sampleDBFree.bookings, b.seatId ≠ sampleSeatFree.id)) ∧
    (((runBookings sampleDBFree [(sampleRequest, sampleCalls), (sampleRequest, sampleCalls),
        (sampleRequest, sampleCalls)]).1.countP BookOutcome.isSuccess = 1) ∧
      ((runBookings sampleDBFree [(sampleRequest, sampleCalls), (sampleRequest, sampleCalls),
        (sampleRequest, sampleCalls)]).1.countP
          (fun o => o == BookOutcome.seatAlreadyBooked)
        = ([(sampleRequest, sampleCalls), (sampleRequest, sampleCalls),
            (sampleRequest, sampleCalls)] : List (BookRequest × CryptoCalls)).length - 1) ∧
      countBookingsForSeat (runBookings sampleDBFree [(sampleRequest, sampleCalls),
        (sampleRequest, sampleCalls), (sampleRequest, sampleCalls)]).2
          sampleSeatFree.id = 1 ∧
      (findSeat (runBookings sampleDBFree [(sampleRequest, sampleCalls),
          (sampleRequest, sampleCalls), (sampleRequest, sampleCalls)]).2 1 "5".toList
        (upperChars "a".toList)).map Seat.isBooked = some true) :=
  ⟨⟨by decide, by decide, by decide, by decide, by decide, by decide, by decide, by decide,
      by decide⟩,
    C1_single_winner sampleDBFree 1 "5".toList "a".toList sampleSeatFree sampleFlight
      [(sampleRequest, sampleCalls), (sampleRequest, sampleCalls),
        (sampleRequest, sampleCalls)]
      (by decide) (by decide) (by decide) (by decide) (by decide) (by decide) (by decide)
      (by decide) (by decide)⟩
